import Mathlib

/-!
# Verification of the Tank 1990 game server

A shallow embedding of the Node.js game server found in
`src/esp32_tank_controller/esp32_tank_controller.ino` (the server part of that
file), together with proofs about the embedded operations.

Conventions of the embedding:
* JavaScript numbers are modelled by `ℚ` (game quantities) or `ℕ`
  (timestamps in milliseconds, counters).
* `gameState.tanks` (a JS `Map` keyed by player id) is modelled by an
  association list `List (String × Tank)`; JS `Map` iteration order is
  insertion order, which the list order mirrors.
* Sources of nondeterminism (UUIDs, `Math.random` positions and types,
  `findSafeSpawnPosition`, `Date.now()`) are passed in as explicit parameters.
* Euclidean distances are irrational in general; where the source only
  compares a distance against a threshold we compare squared values (an
  equivalent test for nonnegative thresholds), and where the source uses the
  distance value itself (explosion falloff) the per-tank distance is supplied
  as an explicit parameter.
* `setTimeout` callbacks are modelled as explicit state transformers that the
  runtime may fire at any later time.
* Broadcast messages are modelled by a `GameEvent` list; the constructors
  mirror the exact JSON keys the server sends.
-/

namespace TankGame

/-! ## CONFIG constants (server source, `const CONFIG = {...}`) -/

def MAP_WIDTH : ℚ := 2000
def MAP_HEIGHT : ℚ := 1200
def TANK_SIZE : ℚ := 70
def BULLET_SPEED : ℚ := 8
def BULLET_SIZE : ℚ := 8
def BASE_TANK_SPEED : ℚ := 3
def BASE_DAMAGE : ℚ := 25
def BASE_HEALTH : ℚ := 100
def BASE_FIRE_RANGE : ℚ := 500
def MAX_OBSTACLES : ℕ := 30
def MAX_POWERUPS : ℕ := 5
def ADMIN_PASSWORD : String := "TankDestroyer"

/-! ## Powerup type configuration (`const POWERUP_TYPES = {...}`) -/

/-- The keys of `POWERUP_TYPES`. -/
inductive PType where
  | SPEED
  | POWER
  | HEALTH
  | RANGE
  | INVINCIBILITY
  | MYSTERY
deriving DecidableEq

/-- `POWERUP_TYPES[ty].multiplier` (only ever read for SPEED/POWER/RANGE;
the other entries have no `multiplier` key and we give them 1). -/
def PType.multiplier : PType → ℚ
  | .SPEED => 13 / 10
  | .POWER => 3 / 2
  | .RANGE => 13 / 10
  | _ => 1

/-- `POWERUP_TYPES[ty].duration` in seconds (0 = never expires). -/
def PType.duration : PType → ℕ
  | .INVINCIBILITY => 10
  | _ => 0

/-- `POWERUP_TYPES[ty].maxStacks`. -/
def PType.maxStacks : PType → ℕ
  | .SPEED => 3
  | .POWER => 3
  | .RANGE => 3
  | _ => 1

/-- `POWERUP_TYPES.HEALTH.amount`. -/
def healthAmount : ℚ := 50

/-- One entry of a tank's `this.powerups` object:
`{ stacks: ..., expiresAt: ... }` (`expiresAt = 0` means never expires). -/
structure StackEntry where
  stackCount : ℕ
  expiresAt : ℕ
deriving DecidableEq

/-- A tank's `this.powerups` JS object, one optional entry per possible key.
(The HEALTH key is present for totality but is never written: the HEALTH
branch of `applyPowerup` returns before touching `this.powerups`.) -/
structure PowerupMap where
  speed : Option StackEntry := none
  power : Option StackEntry := none
  health : Option StackEntry := none
  range : Option StackEntry := none
  invincibility : Option StackEntry := none
  mystery : Option StackEntry := none
deriving DecidableEq

namespace PowerupMap

/-- Property read `this.powerups[ty]`. -/
def get (pm : PowerupMap) : PType → Option StackEntry
  | .SPEED => pm.speed
  | .POWER => pm.power
  | .HEALTH => pm.health
  | .RANGE => pm.range
  | .INVINCIBILITY => pm.invincibility
  | .MYSTERY => pm.mystery

/-- Property write `this.powerups[ty] = e`. -/
def set (pm : PowerupMap) (ty : PType) (e : StackEntry) : PowerupMap :=
  match ty with
  | .SPEED => { pm with speed := some e }
  | .POWER => { pm with power := some e }
  | .HEALTH => { pm with health := some e }
  | .RANGE => { pm with range := some e }
  | .INVINCIBILITY => { pm with invincibility := some e }
  | .MYSTERY => { pm with mystery := some e }

/-- Property delete `delete this.powerups[ty]`. -/
def del (pm : PowerupMap) (ty : PType) : PowerupMap :=
  match ty with
  | .SPEED => { pm with speed := none }
  | .POWER => { pm with power := none }
  | .HEALTH => { pm with health := none }
  | .RANGE => { pm with range := none }
  | .INVINCIBILITY => { pm with invincibility := none }
  | .MYSTERY => { pm with mystery := none }

end PowerupMap

/-! ## Tank -/

/-- The `Tank` class state. Fields the claims never read are omitted:
display colours / avatar (write-only for the server logic), `angle`,
`moving`, `lastFire`, and the base-stat fields `speed`/`damage`/`fireRange`
(which are written but never read — `getEffectiveStats` recomputes from the
`CONFIG` base constants). `ws` is the identity of the currently attached
connection (`tank.ws`), `deviceId` the reconnection key. `invincibilityEnd`
is `none` while the JS field is still `undefined`. -/
structure Tank where
  id : String
  name : String
  deviceId : Option String := none
  ws : Option ℕ := none
  x : ℚ
  y : ℚ
  hp : ℚ
  maxHp : ℚ
  score : ℕ := 0
  kills : ℕ := 0
  deaths : ℕ := 0
  isBot : Bool := false
  spawnProtection : Bool := true
  invincible : Bool := false
  invincibilityEnd : Option ℕ := none
  powerups : PowerupMap := {}
deriving DecidableEq

/-- `sanitizeTankName`: trim, cap at 20 characters, fall back to
`'Unknown'` when the result is empty (JS `|| 'Unknown'`). -/
def sanitizeTankName (name : String) : String :=
  let s := name.trim.take 20
  if s = "" then "Unknown" else s

/-- The `Tank` constructor (`new Tank(id, name, ...)`).  The random spawn
position chosen by `findSafeSpawnPosition()` is a parameter. -/
def Tank.new (id name : String) (spawnPos : ℚ × ℚ) (isBot : Bool) : Tank :=
  { id := id
    name := sanitizeTankName name
    x := spawnPos.1
    y := spawnPos.2
    hp := BASE_HEALTH
    maxHp := BASE_HEALTH
    isBot := isBot }

/-- `Tank.applyPowerup(type)`, with `Date.now()` supplied as `now`
(milliseconds).  Mirrors the source branch-for-branch:
health is instant and clamped; otherwise the stack entry is created fresh
when absent or expired, incremented below `maxStacks`, and at `maxStacks`
only the (finite) duration is refreshed; the INVINCIBILITY branch
additionally mirrors the expiry into `invincible`/`invincibilityEnd`
(the `setTimeout` it schedules is modelled by `invTimerFire` below, with
the captured `expiresAt` as its token). -/
def Tank.applyPowerup (now : ℕ) (ty : PType) (t : Tank) : Tank :=
  if ty = PType.HEALTH then
    { t with hp := min t.maxHp (t.hp + healthAmount) }
  else
    let durationMs := ty.duration * 1000
    let expiresAt := if durationMs > 0 then now + durationMs else 0
    let pm :=
      match t.powerups.get ty with
      | none => t.powerups.set ty ⟨1, expiresAt⟩
      | some e =>
        if e.expiresAt > 0 ∧ now ≥ e.expiresAt then
          t.powerups.set ty ⟨1, expiresAt⟩
        else if e.stackCount < ty.maxStacks then
          t.powerups.set ty ⟨e.stackCount + 1, if durationMs > 0 then expiresAt else e.expiresAt⟩
        else
          t.powerups.set ty ⟨e.stackCount, if durationMs > 0 then expiresAt else e.expiresAt⟩
    let t1 := { t with powerups := pm }
    if ty = PType.INVINCIBILITY then
      { t1 with invincible := true, invincibilityEnd := some expiresAt }
    else t1

/-- The body of the `setTimeout` scheduled by the INVINCIBILITY branch of
`applyPowerup`: when it fires it clears the flag and deletes the entry
only if `this.invincibilityEnd === expiresAt` still holds for the
`expiresAt` captured at scheduling time. -/
def invTimerFire (expiresAt : ℕ) (t : Tank) : Tank :=
  if t.invincibilityEnd = some expiresAt then
    { t with invincible := false, powerups := t.powerups.del PType.INVINCIBILITY }
  else t

/-- The record returned by `getEffectiveStats`. -/
structure Stats where
  speed : ℚ
  damage : ℚ
  range : ℚ
deriving DecidableEq

/-- `Tank.getEffectiveStats()`: starts from the `CONFIG` base stats and, for
each of SPEED/POWER/RANGE, multiplies once per stack when the entry is
unexpired (`expiresAt === 0 || now < expiresAt`), else lazily deletes the
expired entry.  The source's `for` loop multiplying once per stack is the
power `multiplier ^ stacks`.  Returns the stats together with the tank
after the lazy deletions. -/
def Tank.getEffectiveStats (now : ℕ) (t : Tank) : Stats × Tank :=
  let speedStep : ℚ × PowerupMap :=
    match t.powerups.get .SPEED with
    | some e =>
      if e.expiresAt = 0 ∨ now < e.expiresAt then
        (BASE_TANK_SPEED * PType.SPEED.multiplier ^ e.stackCount, t.powerups)
      else (BASE_TANK_SPEED, t.powerups.del .SPEED)
    | none => (BASE_TANK_SPEED, t.powerups)
  let damageStep : ℚ × PowerupMap :=
    match speedStep.2.get .POWER with
    | some e =>
      if e.expiresAt = 0 ∨ now < e.expiresAt then
        (BASE_DAMAGE * PType.POWER.multiplier ^ e.stackCount, speedStep.2)
      else (BASE_DAMAGE, speedStep.2.del .POWER)
    | none => (BASE_DAMAGE, speedStep.2)
  let rangeStep : ℚ × PowerupMap :=
    match damageStep.2.get .RANGE with
    | some e =>
      if e.expiresAt = 0 ∨ now < e.expiresAt then
        (BASE_FIRE_RANGE * PType.RANGE.multiplier ^ e.stackCount, damageStep.2)
      else (BASE_FIRE_RANGE, damageStep.2.del .RANGE)
    | none => (BASE_FIRE_RANGE, damageStep.2)
  (⟨speedStep.1, damageStep.1, rangeStep.1⟩, { t with powerups := rangeStep.2 })

/-- `Tank.respawn()`: new safe position (parameter), full hp, powerups and
invincibility reset (`resetPowerups`), fresh spawn protection, one more
death.  Score, kills and identity are preserved.  (`invincibilityEnd` is
not touched by the source either.) -/
def Tank.respawn (spawnPos : ℚ × ℚ) (t : Tank) : Tank :=
  { t with
    x := spawnPos.1
    y := spawnPos.2
    hp := BASE_HEALTH
    powerups := {}
    invincible := false
    spawnProtection := true
    deaths := t.deaths + 1 }

/-! ## Broadcast events

Each constructor mirrors the exact JSON keys of one `broadcast(...)` call.
Note the two different shapes of `tankDeath` messages the server sends:
the explosion path (`createExplosion`) sends `{type:'tankDeath', tankId,
killer: null}` while the bullet path sends `{type:'tankDeath', tankId,
killerId, wasBot}`. -/
inductive GameEvent where
  | tankDeathKiller (tankId : String) (killer : Option String)
  | tankDeathKillerId (tankId : String) (killerId : String) (wasBot : Bool)
  | explosionMsg (x y radius : ℚ)
  | playerLeft (playerId : String)
  | scoreboardUpdate
  | obstacleSpawn
  | powerupSpawn
deriving DecidableEq

/-! ## Geometry -/

/-- Squared Euclidean distance between two points. -/
def distSq (a b : ℚ × ℚ) : ℚ := (a.1 - b.1) ^ 2 + (a.2 - b.2) ^ 2

/-- `checkCollision(obj1, obj2, size1, size2)`:
the source tests `distance(obj1, obj2) < (size1 + size2) / 2`; for the
nonnegative thresholds it is called with this is equivalent to the squared
comparison used here. -/
def checkCollision (a b : ℚ × ℚ) (size1 size2 : ℚ) : Bool :=
  distSq a b < ((size1 + size2) / 2) ^ 2

/-! ## The tanks collection -/

/-- `gameState.tanks.get(id)` on the association-list model. -/
def lookupTank : List (String × Tank) → String → Option Tank
  | [], _ => none
  | p :: rest, id => if p.1 == id then some p.2 else lookupTank rest id

/-- In-place mutation of the tank stored under `id` (JS object mutation
through the reference held by the `Map`). -/
def updTank (tanks : List (String × Tank)) (id : String) (f : Tank → Tank) :
    List (String × Tank) :=
  tanks.map (fun p => if p.1 == id then (p.1, f p.2) else p)

/-! ## Explosions (`createExplosion`) -/

/-- The body of the `gameState.tanks.forEach` inside `createExplosion`,
for one tank: spawn-protected or invincible tanks are skipped outright;
a tank at distance `dist` inside the blast radius takes
`damage * (1 - dist / radius)`; a tank driven to hp ≤ 0 respawns and a
`tankDeath` message with `killer: null` is broadcast.  `dist` stands for
`distance({x, y}, tank)` and `newPos` for the respawn position chosen by
`findSafeSpawnPosition()`. -/
def explodeTank (dist radius damage : ℚ) (newPos : ℚ × ℚ) (t : Tank) :
    Tank × List GameEvent :=
  if t.spawnProtection || t.invincible then (t, [])
  else if dist < radius then
    if ({ t with hp := t.hp - damage * (1 - dist / radius) } : Tank).hp ≤ 0 then
      (Tank.respawn newPos { t with hp := t.hp - damage * (1 - dist / radius) },
       [.tankDeathKiller t.id none])
    else ({ t with hp := t.hp - damage * (1 - dist / radius) }, [])
  else (t, [])

/-- `createExplosion(x, y, radius, damage)`: applies `explodeTank` to every
tank and finally broadcasts the `explosion` message.  `dist x y t` supplies
the Euclidean distance `distance({x, y}, tank)` and `newPos id` the respawn
position for the tank with that id. -/
def createExplosion (dist : ℚ → ℚ → Tank → ℚ) (newPos : String → ℚ × ℚ)
    (x y radius damage : ℚ) (tanks : List (String × Tank)) :
    List (String × Tank) × List GameEvent :=
  (tanks.map fun p =>
    (p.1, (explodeTank (dist x y p.2) radius damage (newPos p.1) p.2).1),
   (tanks.map fun p =>
     (explodeTank (dist x y p.2) radius damage (newPos p.1) p.2).2).flatten
    ++ [.explosionMsg x y radius])

/-! ## Bullet hit resolution (`updateGame`, bullet vs tank loop) -/

/-- A bullet, reduced to the fields the hit-resolution loop reads
(`update`/`isOutOfRange`/`isOutOfBounds` involve trigonometry and are not
needed by any claim). -/
structure Bullet where
  ownerId : String
  x : ℚ
  y : ℚ
  damage : ℚ
deriving DecidableEq

/-- One iteration of the `gameState.tanks.forEach` of the bullet-filter in
`updateGame`, for the tank stored under `tid`: the bullet's owner and
protected tanks are skipped; on a collision the tank takes the bullet's
damage and, if driven to hp ≤ 0, the shooter (if still present) is awarded
points (50 for a bot victim, 100 for a human) and a kill, the scoreboard
is recomputed, the victim respawns, and a `tankDeath` message with
`killerId`/`wasBot` is sent.  Returns the updated map, whether this tank
was hit (the loop's `hitTank = true` assignment), and the broadcasts. -/
def bulletTankStep (newPos : String → ℚ × ℚ) (b : Bullet) (tid : String)
    (tanks : List (String × Tank)) :
    List (String × Tank) × Bool × List GameEvent :=
  match lookupTank tanks tid with
  | none => (tanks, false, [])
  | some t =>
    if tid = b.ownerId then (tanks, false, [])
    else if t.spawnProtection || t.invincible then (tanks, false, [])
    else if checkCollision (b.x, b.y) (t.x, t.y) BULLET_SIZE TANK_SIZE then
      if ({ t with hp := t.hp - b.damage } : Tank).hp ≤ 0 then
        (updTank
          (updTank (updTank tanks tid (fun _ => { t with hp := t.hp - b.damage }))
            b.ownerId fun a =>
              { a with score := a.score + (if t.isBot then 50 else 100),
                       kills := a.kills + 1 })
          tid (fun v => v.respawn (newPos tid)),
         true,
         (if (lookupTank tanks b.ownerId).isSome
          then [GameEvent.scoreboardUpdate] else []) ++
           [GameEvent.tankDeathKillerId t.id b.ownerId t.isBot])
      else (updTank tanks tid (fun _ => { t with hp := t.hp - b.damage }), true, [])
    else (tanks, false, [])

/-- The whole `gameState.tanks.forEach` of the bullet-filter, iterating over
the id snapshot `ids` (JS `Map.forEach` visits the entries present at call
time; this loop neither inserts nor removes entries, so the snapshot is the
iteration order). -/
def bulletHitLoop (newPos : String → ℚ × ℚ) (b : Bullet) (ids : List String)
    (tanks : List (String × Tank)) (hitTank : Bool) (evs : List GameEvent) :
    List (String × Tank) × Bool × List GameEvent :=
  match ids with
  | [] => (tanks, hitTank, evs)
  | tid :: rest =>
    bulletHitLoop newPos b rest (bulletTankStep newPos b tid tanks).1
      (hitTank || (bulletTankStep newPos b tid tanks).2.1)
      (evs ++ (bulletTankStep newPos b tid tanks).2.2)

/-- Entry point of the per-bullet tank loop: the id snapshot is the current
iteration order of `gameState.tanks`. -/
def resolveBulletTanks (newPos : String → ℚ × ℚ) (b : Bullet)
    (tanks : List (String × Tank)) :
    List (String × Tank) × Bool × List GameEvent :=
  bulletHitLoop newPos b (tanks.map (fun p => p.1)) tanks false []

/-! ## Session manager: joins and disconnects -/

/-- The fields of an `esp32Join` / `simulatorJoin` message the join logic
reads. -/
structure JoinData where
  deviceId : Option String
  name : String
deriving DecidableEq

/-- `data.deviceId || sanitizeTankName(data.name)` (JS `||`: an absent or
empty-string `deviceId` falls back to the sanitized name). -/
def joinDeviceId (d : JoinData) : String :=
  match d.deviceId with
  | some s => if s = "" then sanitizeTankName d.name else s
  | none => sanitizeTankName d.name

/-- The reconnect test `tank.deviceId === deviceId && !tank.isBot` used by
both join handlers. -/
def devMatch (devId : String) (p : String × Tank) : Bool :=
  p.2.deviceId == some devId && !p.2.isBot

/-- The reconnect lookup in both join handlers: the first entry whose tank
carries this `deviceId` and is not a bot. -/
def findDeviceTank (devId : String) (tanks : List (String × Tank)) :
    Option (String × Tank) :=
  tanks.find? (devMatch devId)

/-- The shared tank-attachment logic of `case 'esp32Join'` and
`case 'simulatorJoin'` (identical in the source up to the response
payload and the `isESP32` flag on the socket): reattach to an existing
live tank for this device identifier (updating only its active
connection), or create and insert a fresh tank.  Returns the `playerId`
sent back in the `joined` response together with the new tanks map.
`conn` is the joining connection, `newId` the `uuidv4()` used when a new
tank is created, `spawnPos` its random spawn position. -/
def handleDeviceJoin (conn : ℕ) (newId : String) (d : JoinData)
    (spawnPos : ℚ × ℚ) (tanks : List (String × Tank)) :
    String × List (String × Tank) :=
  match findDeviceTank (joinDeviceId d) tanks with
  | some (existingId, _) =>
    (existingId, updTank tanks existingId (fun t => { t with ws := some conn }))
  | none =>
    (newId, tanks ++ [(newId, { Tank.new newId d.name spawnPos false with
                                deviceId := some (joinDeviceId d), ws := some conn })])

/-- `case 'simulatorJoin'`: identical to the device join but rejected with
an `error` message (modelled as `none`) when the admin password does not
match. -/
def handleSimulatorJoin (adminPassword : String) (conn : ℕ) (newId : String)
    (d : JoinData) (spawnPos : ℚ × ℚ) (tanks : List (String × Tank)) :
    Option (String × List (String × Tank)) :=
  if adminPassword = ADMIN_PASSWORD then
    some (handleDeviceJoin conn newId d spawnPos tanks)
  else none

/-- The `ws.on('close')` handler (also reached by the heartbeat sweep's
`ws.terminate()`, which fires the same `'close'` event): if this connection
had joined as `playerId`, remove that tank only when it is a non-bot tank
whose currently attached connection (`tank.ws`) is still this one. -/
def handleClose (conn : ℕ) (playerId : Option String)
    (tanks : List (String × Tank)) : List (String × Tank) × List GameEvent :=
  match playerId with
  | none => (tanks, [])
  | some pid =>
    match lookupTank tanks pid with
    | none => (tanks, [])
    | some t =>
      if !t.isBot && t.ws == some conn then
        (tanks.filter (fun p => p.1 != pid), [.playerLeft pid, .scoreboardUpdate])
      else (tanks, [])

/-! ## Periodic spawners -/

/-- The keys of `OBSTACLE_TYPES`. -/
inductive OType where
  | TREE
  | WALL
  | BARREL
  | CRATE
deriving DecidableEq

/-- `OBSTACLE_TYPES[ty].hp`. -/
def OType.hp : OType → ℚ
  | .TREE => 30
  | .WALL => 150
  | .BARREL => 20
  | .CRATE => 40

/-- The `Obstacle` constructor's `size`: 60 for walls, 40 otherwise. -/
def OType.size : OType → ℚ
  | .WALL => 60
  | _ => 40

/-- The `Obstacle` class state (the `config` back-pointer is recovered from
`typ`). -/
structure Obstacle where
  id : String
  typ : OType
  x : ℚ
  y : ℚ
  hp : ℚ
  maxHp : ℚ
  size : ℚ
deriving DecidableEq

/-- `new Obstacle(type)` with the `randomPosition()` result and the
`uuidv4()` as parameters. -/
def mkObstacle (id : String) (typ : OType) (pos : ℚ × ℚ) : Obstacle :=
  { id := id, typ := typ, x := pos.1, y := pos.2
    hp := typ.hp, maxHp := typ.hp, size := typ.size }

/-- `spawnObstacle()`: nothing is added at the `MAX_OBSTACLES` cap; the
randomly placed obstacle (random type and position are parameters; its
coordinates are exactly `pos`) is discarded when some tank is within
`TANK_SIZE * 2` of it — the source tests
`distance(obstacle, t) < CONFIG.TANK_SIZE * 2`, compared squared here. -/
def spawnObstacle (id : String) (typ : OType) (pos : ℚ × ℚ)
    (tanks : List (String × Tank)) (obstacles : List Obstacle) :
    List Obstacle × List GameEvent :=
  if obstacles.length ≥ MAX_OBSTACLES then (obstacles, [])
  else if tanks.any fun p =>
      decide (distSq pos (p.2.x, p.2.y) < (TANK_SIZE * 2) ^ 2) then
    (obstacles, [])
  else (obstacles ++ [mkObstacle id typ pos], [.obstacleSpawn])

/-- The `Powerup` class state. -/
structure Powerup where
  id : String
  typ : PType
  x : ℚ
  y : ℚ
  size : ℚ
deriving DecidableEq

/-- `spawnPowerup(x, y)`: nothing is added at the `MAX_POWERUPS` cap;
otherwise the powerup (random type, and position either passed in by the
caller or random) is pushed unconditionally — the source performs no
collision check against tanks here. -/
def spawnPowerup (id : String) (typ : PType) (pos : ℚ × ℚ)
    (powerups : List Powerup) : List Powerup × List GameEvent :=
  if powerups.length ≥ MAX_POWERUPS then (powerups, [])
  else (powerups ++ [{ id := id, typ := typ, x := pos.1, y := pos.2, size := 25 }],
        [.powerupSpawn])

/-! ## Scoreboard -/

/-- One row of `gameState.scoreboard`. -/
structure ScoreRow where
  id : String
  name : String
  score : ℕ
  kills : ℕ
  deaths : ℕ
  isBot : Bool
deriving DecidableEq

/-- The `.map(...)` projection inside `updateScoreboard`. -/
def scoreRow (t : Tank) : ScoreRow :=
  { id := t.id, name := t.name, score := t.score, kills := t.kills
    deaths := t.deaths, isBot := t.isBot }

/-- The order realised by the comparator `(a, b) => b.score - a.score`:
descending score. -/
def scoreGe (a b : ScoreRow) : Prop := b.score ≤ a.score

instance : DecidableRel scoreGe := fun a b => Nat.decLe b.score a.score

instance : IsTotal ScoreRow scoreGe :=
  ⟨fun a b => Nat.le_total b.score a.score⟩

instance : IsTrans ScoreRow scoreGe :=
  ⟨fun _ _ _ h1 h2 => Nat.le_trans h2 h1⟩

/-- `updateScoreboard()`: rebuilds the scoreboard from scratch as one row
per live tank, sorted by descending score (`.sort((a, b) => b.score -
a.score)`, realised here by an insertion sort with the same ordering). -/
def updateScoreboard (tanks : List (String × Tank)) : List ScoreRow :=
  List.insertionSort scoreGe (tanks.map (fun p => scoreRow p.2))

/-! ## Powerup stack invariant (claim C1) -/

/-- All keys of `POWERUP_TYPES`. -/
def allPTypes : List PType :=
  [.SPEED, .POWER, .HEALTH, .RANGE, .INVINCIBILITY, .MYSTERY]

/-- One recorded stack entry is within `[1, maxStacks]` (vacuous when
absent). -/
def stackEntryOK (ty : PType) : Option StackEntry → Bool
  | none => true
  | some e => decide (1 ≤ e.stackCount) && decide (e.stackCount ≤ ty.maxStacks)

/-- Every recorded entry of a powerup map is within bounds. -/
def stacksOKpm (pm : PowerupMap) : Bool :=
  allPTypes.all fun ty => stackEntryOK ty (pm.get ty)

/-- Spec invariant: every powerup type recorded on the tank has a stack
count in `[1, that type's maxStacks]`. -/
def stacksOK (t : Tank) : Bool := stacksOKpm t.powerups

lemma mem_allPTypes (ty : PType) : ty ∈ allPTypes := by
  cases ty <;> simp [allPTypes]

lemma stacksOKpm_iff {pm : PowerupMap} :
    stacksOKpm pm = true ↔ ∀ ty, stackEntryOK ty (pm.get ty) = true := by
  rw [stacksOKpm, List.all_eq_true]
  exact ⟨fun h ty => h ty (mem_allPTypes ty), fun h ty _ => h ty⟩

lemma get_set_self (pm : PowerupMap) (ty : PType) (e : StackEntry) :
    (pm.set ty e).get ty = some e := by
  cases ty <;> rfl

lemma get_set_ne (pm : PowerupMap) {ty ty' : PType} (e : StackEntry)
    (h : ty' ≠ ty) : (pm.set ty e).get ty' = pm.get ty' := by
  cases ty <;> cases ty' <;> first | rfl | exact absurd rfl h

lemma stacksOKpm_set {pm : PowerupMap} {ty : PType} {e : StackEntry}
    (h : stacksOKpm pm = true) (h1 : 1 ≤ e.stackCount)
    (h2 : e.stackCount ≤ ty.maxStacks) : stacksOKpm (pm.set ty e) = true := by
  rw [stacksOKpm_iff] at h ⊢
  intro ty'
  by_cases hty : ty' = ty
  · subst hty
    rw [get_set_self]
    simp [stackEntryOK, h1, h2]
  · rw [get_set_ne _ _ hty]
    exact h ty'

lemma one_le_maxStacks (ty : PType) : 1 ≤ ty.maxStacks := by
  cases ty <;> decide

lemma stacksOK_applyPowerup {t : Tank} (now : ℕ) (ty : PType)
    (h : stacksOK t = true) : stacksOK (t.applyPowerup now ty) = true := by
  unfold stacksOK Tank.applyPowerup
  by_cases hH : ty = PType.HEALTH
  · rw [if_pos hH]
    exact h
  · rw [if_neg hH]
    dsimp only
    split
    all_goals
      dsimp only
      cases hm : t.powerups.get ty with
      | none =>
        exact stacksOKpm_set h (Nat.le_refl 1) (one_le_maxStacks ty)
      | some e =>
        dsimp only
        have he : stackEntryOK ty (some e) = true := by
          have hh := stacksOKpm_iff.mp h ty
          rwa [hm] at hh
        simp only [stackEntryOK, Bool.and_eq_true, decide_eq_true_eq] at he
        by_cases hexp : e.expiresAt > 0 ∧ now ≥ e.expiresAt
        · rw [if_pos hexp]
          exact stacksOKpm_set h (Nat.le_refl 1) (one_le_maxStacks ty)
        · rw [if_neg hexp]
          by_cases hlt : e.stackCount < ty.maxStacks
          · rw [if_pos hlt]
            exact stacksOKpm_set h (Nat.le_succ_of_le he.1) hlt
          · rw [if_neg hlt]
            exact stacksOKpm_set h he.1 he.2

lemma stacksOK_foldl (apps : List (ℕ × PType)) (t : Tank)
    (h : stacksOK t = true) :
    stacksOK (apps.foldl (fun s p => s.applyPowerup p.1 p.2) t) = true := by
  induction apps generalizing t with
  | nil => exact h
  | cons p rest ih => exact ih _ (stacksOK_applyPowerup p.1 p.2 h)

/-- **C1.** Any sequence of `applyPowerup` calls leaves every recorded stack
count within `[1, maxStacks]` of its type; and applying SPEED (multiplier
1.3, maxStacks 3) four times in a row to a fresh tank yields exactly 3
recorded stacks, and `getEffectiveStats` then reports an effective speed of
`base * 1.3 ^ 3`, which differs from `base * 1.3 ^ 4`. -/
theorem claim1_powerup_stack_bounds :
    (∀ (t : Tank), stacksOK t = true → ∀ (apps : List (ℕ × PType)),
      stacksOK (apps.foldl (fun s p => s.applyPowerup p.1 p.2) t) = true) ∧
    (∀ (id name : String) (pos : ℚ × ℚ) (n1 n2 n3 n4 n5 : ℕ),
      (((((Tank.new id name pos false).applyPowerup n1 .SPEED).applyPowerup
          n2 .SPEED).applyPowerup n3 .SPEED).applyPowerup n4 .SPEED).powerups.get
            .SPEED = some ⟨3, 0⟩ ∧
      ((((((Tank.new id name pos false).applyPowerup n1 .SPEED).applyPowerup
          n2 .SPEED).applyPowerup n3 .SPEED).applyPowerup n4 .SPEED).getEffectiveStats
            n5).1.speed = BASE_TANK_SPEED * PType.SPEED.multiplier ^ 3 ∧
      BASE_TANK_SPEED * PType.SPEED.multiplier ^ 3 ≠
        BASE_TANK_SPEED * PType.SPEED.multiplier ^ 4) := by
  refine ⟨fun t h apps => stacksOK_foldl apps t h, fun id name pos n1 n2 n3 n4 n5 => ?_⟩
  refine ⟨rfl, rfl, by norm_num [BASE_TANK_SPEED, PType.multiplier]⟩

/-- Witness for C1: the invariant hypothesis holds for a concrete fresh
tank, and the conclusion evaluates there. -/
theorem claim1_powerup_stack_bounds_witness :
    stacksOK (Tank.new "w1" "W" (100, 100) false) = true ∧
    stacksOK ([((5 : ℕ), PType.POWER), ((9 : ℕ), PType.INVINCIBILITY)].foldl
      (fun s p => s.applyPowerup p.1 p.2) (Tank.new "w1" "W" (100, 100) false)) = true :=
  ⟨by decide, claim1_powerup_stack_bounds.1 _ (by decide) _⟩

/-! ## Invincibility expiry timer (claim C6) -/

lemma get_del_self (pm : PowerupMap) (ty : PType) : (pm.del ty).get ty = none := by
  cases ty <;> rfl

lemma applyPowerup_invincibilityEnd (t : Tank) (now : ℕ) :
    (t.applyPowerup now .INVINCIBILITY).invincibilityEnd = some (now + 10000) :=
  rfl

/-- **C6.** The scheduled invincibility-expiry callback clears the
`invincible` flag and deletes the INVINCIBILITY entry only when the tank's
recorded expiry still equals the expiry instant captured at scheduling
time; in particular a stale timer from an application at `n1` never clears
the invincibility re-applied later at `n2 > n1` (which extended the expiry
past `n1 + 10000`). -/
theorem claim6_stale_invincibility_timer :
    (∀ (token : ℕ) (t : Tank),
      t.invincibilityEnd ≠ some token → invTimerFire token t = t) ∧
    (∀ (token : ℕ) (t : Tank), t.invincibilityEnd = some token →
      (invTimerFire token t).invincible = false ∧
      (invTimerFire token t).powerups.get .INVINCIBILITY = none) ∧
    (∀ (t : Tank) (n1 n2 : ℕ), n1 < n2 →
      invTimerFire (n1 + 10000)
          ((t.applyPowerup n1 .INVINCIBILITY).applyPowerup n2 .INVINCIBILITY) =
        (t.applyPowerup n1 .INVINCIBILITY).applyPowerup n2 .INVINCIBILITY ∧
      ((t.applyPowerup n1 .INVINCIBILITY).applyPowerup n2 .INVINCIBILITY).invincible
        = true) := by
  refine ⟨fun token t h => by rw [invTimerFire, if_neg h],
          fun token t h => ?_, fun t n1 n2 h12 => ⟨?_, rfl⟩⟩
  · rw [invTimerFire, if_pos h]
    exact ⟨rfl, get_del_self t.powerups PType.INVINCIBILITY⟩
  · rw [invTimerFire, if_neg]
    rw [applyPowerup_invincibilityEnd]
    intro hEq
    have : n2 + 10000 = n1 + 10000 := by injection hEq
    omega

/-- Witness for C6: a stale timer token from an application at time 0 does
not clear the invincibility re-applied at time 1. -/
theorem claim6_stale_invincibility_timer_witness :
    invTimerFire (0 + 10000)
        (((Tank.new "w6" "W" (0, 0) false).applyPowerup 0
            .INVINCIBILITY).applyPowerup 1 .INVINCIBILITY) =
      ((Tank.new "w6" "W" (0, 0) false).applyPowerup 0
          .INVINCIBILITY).applyPowerup 1 .INVINCIBILITY ∧
    (((Tank.new "w6" "W" (0, 0) false).applyPowerup 0
        .INVINCIBILITY).applyPowerup 1 .INVINCIBILITY).invincible = true :=
  claim6_stale_invincibility_timer.2.2 (Tank.new "w6" "W" (0, 0) false) 0 1
    (by decide)

/-! ## Association-list lemmas for the tanks map -/

lemma lookupTank_nil (id : String) : lookupTank [] id = none := rfl

lemma lookupTank_cons (p : String × Tank) (ts : List (String × Tank))
    (id : String) :
    lookupTank (p :: ts) id =
      if p.1 == id then some p.2 else lookupTank ts id := rfl

lemma lookupTank_cons_pos {p : String × Tank} (ts : List (String × Tank))
    {id : String} (hp : (p.1 == id) = true) :
    lookupTank (p :: ts) id = some p.2 := by
  rw [lookupTank_cons, if_pos hp]

lemma lookupTank_cons_neg {p : String × Tank} (ts : List (String × Tank))
    {id : String} (hp : ¬(p.1 == id) = true) :
    lookupTank (p :: ts) id = lookupTank ts id := by
  rw [lookupTank_cons, if_neg hp]

lemma updTank_cons (p : String × Tank) (ts : List (String × Tank))
    (id : String) (f : Tank → Tank) :
    updTank (p :: ts) id f =
      (if p.1 == id then (p.1, f p.2) else p) :: updTank ts id f := rfl

lemma updTank_map_fst (ts : List (String × Tank)) (id : String)
    (f : Tank → Tank) : (updTank ts id f).map Prod.fst = ts.map Prod.fst := by
  induction ts with
  | nil => rfl
  | cons p rest ih =>
    rw [updTank_cons, List.map_cons, List.map_cons, ih]
    by_cases hp : p.1 == id
    · rw [if_pos hp]
    · rw [if_neg hp]

lemma updTank_length (ts : List (String × Tank)) (id : String)
    (f : Tank → Tank) : (updTank ts id f).length = ts.length := by
  unfold updTank
  rw [List.length_map]

lemma lookupTank_updTank_self {ts : List (String × Tank)} {id : String}
    {t : Tank} (f : Tank → Tank) (h : lookupTank ts id = some t) :
    lookupTank (updTank ts id f) id = some (f t) := by
  induction ts with
  | nil => exact absurd h (by rw [lookupTank_nil]; exact Option.noConfusion)
  | cons p rest ih =>
    rw [updTank_cons]
    by_cases hp : p.1 == id
    · rw [lookupTank_cons_pos rest hp] at h
      rw [if_pos hp, lookupTank_cons_pos (p := (p.1, f p.2)) _ hp]
      rw [Option.some_inj] at h
      rw [h]
    · rw [lookupTank_cons_neg rest hp] at h
      rw [if_neg hp, lookupTank_cons_neg _ hp]
      exact ih h

lemma lookupTank_updTank_ne {ts : List (String × Tank)} {id id' : String}
    (f : Tank → Tank) (h : id' ≠ id) :
    lookupTank (updTank ts id f) id' = lookupTank ts id' := by
  induction ts with
  | nil => rfl
  | cons p rest ih =>
    rw [updTank_cons]
    by_cases hp : p.1 == id
    · have hne : ¬(p.1 == id') = true := by
        intro hc
        exact h ((beq_iff_eq.mp hc).symm.trans (beq_iff_eq.mp hp))
      rw [if_pos hp, lookupTank_cons_neg (p := (p.1, f p.2)) _ (by exact hne),
        lookupTank_cons_neg rest hne]
      exact ih
    · rw [if_neg hp]
      by_cases hp' : p.1 == id'
      · rw [lookupTank_cons_pos _ hp', lookupTank_cons_pos rest hp']
      · rw [lookupTank_cons_neg _ hp', lookupTank_cons_neg rest hp']
        exact ih

lemma lookup_of_mem_nodup {ts : List (String × Tank)} {i : String} {t : Tank}
    (hnd : (ts.map Prod.fst).Nodup) (hmem : (i, t) ∈ ts) :
    lookupTank ts i = some t := by
  induction ts with
  | nil => cases hmem
  | cons p rest ih =>
    rw [List.map_cons, List.nodup_cons] at hnd
    rcases List.mem_cons.mp hmem with rfl | hmem'
    · exact lookupTank_cons_pos rest (by exact beq_self_eq_true i)
    · have hp : ¬(p.1 == i) = true := by
        intro hc
        exact hnd.1 ((beq_iff_eq.mp hc) ▸
          (List.mem_map_of_mem Prod.fst hmem' : (i, t).1 ∈ rest.map Prod.fst))
      rw [lookupTank_cons_neg rest hp]
      exact ih hnd.2 hmem'

/-! ## Device-identity uniqueness (claim C2) -/

/-- Number of live non-bot tanks recorded for a device identifier. -/
def devCount (dev : String) (tanks : List (String × Tank)) : ℕ :=
  (tanks.filter (devMatch dev)).length

/-- Spec invariant: at most one live non-bot tank exists per deviceId. -/
def devUnique (tanks : List (String × Tank)) : Prop :=
  ∀ dev : String, devCount dev tanks ≤ 1

lemma devCount_le_length (dev : String) (ts : List (String × Tank)) :
    devCount dev ts ≤ ts.length :=
  List.length_filter_le _ _

lemma devCount_cons_pos {dev : String} {p : String × Tank}
    (ts : List (String × Tank)) (hm : devMatch dev p = true) :
    devCount dev (p :: ts) = devCount dev ts + 1 := by
  unfold devCount
  rw [List.filter_cons_of_pos hm, List.length_cons]

lemma devCount_cons_neg {dev : String} {p : String × Tank}
    (ts : List (String × Tank)) (hm : ¬devMatch dev p = true) :
    devCount dev (p :: ts) = devCount dev ts := by
  unfold devCount
  rw [List.filter_cons_of_neg (by simpa using hm)]

lemma devMatch_ws {dev : String} (p : String × Tank) (c : ℕ) :
    devMatch dev (p.1, { p.2 with ws := some c }) = devMatch dev p := rfl

lemma devCount_updTank_ws (dev : String) (ts : List (String × Tank))
    (id : String) (c : ℕ) :
    devCount dev (updTank ts id (fun t => { t with ws := some c })) =
      devCount dev ts := by
  induction ts with
  | nil => rfl
  | cons p rest ih =>
    rw [updTank_cons]
    by_cases hp : p.1 == id
    · rw [if_pos hp]
      by_cases hm : devMatch dev p
      · rw [devCount_cons_pos _ (by rw [devMatch_ws]; exact hm),
          devCount_cons_pos rest hm, ih]
      · rw [devCount_cons_neg _ (by rw [devMatch_ws]; exact hm),
          devCount_cons_neg rest hm, ih]
    · rw [if_neg hp]
      by_cases hm : devMatch dev p
      · rw [devCount_cons_pos _ hm, devCount_cons_pos rest hm, ih]
      · rw [devCount_cons_neg _ hm, devCount_cons_neg rest hm, ih]

lemma devCount_append_single (dev : String) (ts : List (String × Tank))
    (x : String × Tank) :
    devCount dev (ts ++ [x]) =
      devCount dev ts + (if devMatch dev x then 1 else 0) := by
  unfold devCount
  rw [List.filter_append, List.length_append]
  by_cases hm : devMatch dev x
  · rw [if_pos hm, List.filter_cons_of_pos hm, List.filter_nil]
    rfl
  · rw [if_neg hm, List.filter_cons_of_neg (by simpa using hm), List.filter_nil]
    rfl

/-- **C2.** A join (`esp32Join` or `simulatorJoin` with the correct admin
password) whose device identifier matches a live non-bot tank reattaches
that tank: the returned playerId is the existing tank's id, the tank is
unchanged except for its active connection (so score, kills and deaths are
preserved), and no tank is added or removed; moreover any join preserves
the at-most-one-live-non-bot-tank-per-deviceId invariant. -/
theorem claim2_reconnect_preserves_identity :
    (∀ (conn : ℕ) (newId : String) (d : JoinData) (pos : ℚ × ℚ)
       (tanks : List (String × Tank)) (i : String) (t : Tank),
      (tanks.map Prod.fst).Nodup →
      findDeviceTank (joinDeviceId d) tanks = some (i, t) →
      (handleDeviceJoin conn newId d pos tanks).1 = i ∧
      lookupTank (handleDeviceJoin conn newId d pos tanks).2 i =
        some { t with ws := some conn } ∧
      (handleDeviceJoin conn newId d pos tanks).2.length = tanks.length ∧
      (handleDeviceJoin conn newId d pos tanks).2.map Prod.fst =
        tanks.map Prod.fst) ∧
    (∀ (conn : ℕ) (newId : String) (d : JoinData) (pos : ℚ × ℚ)
       (tanks : List (String × Tank)),
      devUnique tanks → devUnique (handleDeviceJoin conn newId d pos tanks).2) ∧
    (∀ (pwd : String) (conn : ℕ) (newId : String) (d : JoinData) (pos : ℚ × ℚ)
       (tanks : List (String × Tank)), pwd = ADMIN_PASSWORD →
      handleSimulatorJoin pwd conn newId d pos tanks =
        some (handleDeviceJoin conn newId d pos tanks)) := by
  refine ⟨?_, ?_, ?_⟩
  · intro conn newId d pos tanks i t hnd hfind
    have hmem : (i, t) ∈ tanks := List.mem_of_find?_eq_some hfind
    have hlk : lookupTank tanks i = some t := lookup_of_mem_nodup hnd hmem
    have hjoin : handleDeviceJoin conn newId d pos tanks =
        (i, updTank tanks i (fun s => { s with ws := some conn })) := by
      unfold handleDeviceJoin
      rw [hfind]
    rw [hjoin]
    dsimp only
    exact ⟨rfl, lookupTank_updTank_self _ hlk, updTank_length _ _ _,
      updTank_map_fst _ _ _⟩
  · intro conn newId d pos tanks hU dev
    rcases hfind : findDeviceTank (joinDeviceId d) tanks with _ | ⟨i, t⟩
    · have hjoin : handleDeviceJoin conn newId d pos tanks =
          (newId, tanks ++ [(newId, { Tank.new newId d.name pos false with
                                      deviceId := some (joinDeviceId d),
                                      ws := some conn })]) := by
        unfold handleDeviceJoin
        rw [hfind]
      rw [hjoin]
      dsimp only
      rw [devCount_append_single]
      by_cases hm : devMatch dev
          (newId, { Tank.new newId d.name pos false with
                    deviceId := some (joinDeviceId d), ws := some conn })
      · have hdev : dev = joinDeviceId d := by
          have h1 := hm
          rw [devMatch, Bool.and_eq_true] at h1
          have h2 : (some (joinDeviceId d) == some dev) = true := h1.1
          exact (Option.some_inj.mp (beq_iff_eq.mp h2)).symm
        have hzero : devCount dev tanks = 0 := by
          subst hdev
          unfold devCount
          have hall := List.find?_eq_none.mp hfind
          rw [List.filter_eq_nil_iff.mpr fun a ha => by
            simpa using hall a ha]
          rfl
        rw [if_pos hm, hzero]
      · rw [if_neg hm]
        simpa using hU dev
    · have hjoin : handleDeviceJoin conn newId d pos tanks =
          (i, updTank tanks i (fun s => { s with ws := some conn })) := by
        unfold handleDeviceJoin
        rw [hfind]
      rw [hjoin]
      dsimp only
      rw [devCount_updTank_ws]
      exact hU dev
  · intro pwd conn newId d pos tanks hpwd
    unfold handleSimulatorJoin
    rw [if_pos hpwd]

/-- Concrete world for the C2 witness: one live non-bot tank with device
identifier "devA" attached to connection 1. -/
def tankW2 : Tank :=
  { Tank.new "id1" "Alice" (5, 5) false with deviceId := some "devA", ws := some 1 }

def tanksW2 : List (String × Tank) := [("id1", tankW2)]

/-- Witness for C2: reconnecting on connection 2 with deviceId "devA"
reattaches the existing tank. -/
theorem claim2_reconnect_preserves_identity_witness :
    (handleDeviceJoin 2 "id2" ⟨some "devA", "Alice"⟩ (7, 7) tanksW2).1 = "id1" ∧
    lookupTank (handleDeviceJoin 2 "id2" ⟨some "devA", "Alice"⟩ (7, 7) tanksW2).2
      "id1" = some { tankW2 with ws := some 2 } ∧
    (handleDeviceJoin 2 "id2" ⟨some "devA", "Alice"⟩ (7, 7) tanksW2).2.length =
      tanksW2.length ∧
    devCount "devA"
      (handleDeviceJoin 2 "id2" ⟨some "devA", "Alice"⟩ (7, 7) tanksW2).2 ≤ 1 ∧
    handleSimulatorJoin "TankDestroyer" 2 "id2" ⟨some "devA", "Alice"⟩ (7, 7)
      tanksW2 = some (handleDeviceJoin 2 "id2" ⟨some "devA", "Alice"⟩ (7, 7) tanksW2) := by
  have h1 := claim2_reconnect_preserves_identity.1 2 "id2" ⟨some "devA", "Alice"⟩
    (7, 7) tanksW2 "id1" tankW2 (by decide) rfl
  have h2 := claim2_reconnect_preserves_identity.2.1 2 "id2"
    ⟨some "devA", "Alice"⟩ (7, 7) tanksW2
    (fun dev => le_trans (devCount_le_length dev tanksW2) (by decide)) "devA"
  have h3 := claim2_reconnect_preserves_identity.2.2 "TankDestroyer" 2 "id2"
    ⟨some "devA", "Alice"⟩ (7, 7) tanksW2 rfl
  exact ⟨h1.1, h1.2.1, h1.2.2.1, h2, h3⟩

/-! ## Disconnect cleanup (claim C3) -/

/-- The close handler leaves the world untouched whenever the closing
connection is not the tank's currently attached one. -/
lemma handleClose_inactive {conn : ℕ} {pid : String}
    {tanks : List (String × Tank)} {t : Tank}
    (h : lookupTank tanks pid = some t) (hws : t.ws ≠ some conn) :
    handleClose conn (some pid) tanks = (tanks, []) := by
  unfold handleClose
  dsimp only
  rw [h]
  dsimp only
  rw [if_neg]
  intro hc
  rw [Bool.and_eq_true] at hc
  exact hws (beq_iff_eq.mp hc.2)

/-- **C3.** A closing connection (client close or heartbeat `terminate()`,
both of which fire the same `'close'` handler) removes the tank it had
joined as only if it is still that tank's active connection; after a
reconnect onto a newer connection, the stale older connection's close
leaves the world unchanged. -/
theorem claim3_close_removes_only_active :
    (∀ (conn : ℕ) (pid : String) (tanks : List (String × Tank)) (t : Tank),
      lookupTank tanks pid = some t → t.ws ≠ some conn →
      handleClose conn (some pid) tanks = (tanks, [])) ∧
    (∀ (c1 c2 : ℕ) (newId : String) (d : JoinData) (pos : ℚ × ℚ)
       (tanks : List (String × Tank)) (i : String) (t : Tank),
      (tanks.map Prod.fst).Nodup →
      findDeviceTank (joinDeviceId d) tanks = some (i, t) →
      c1 ≠ c2 →
      handleClose c1 (some i) (handleDeviceJoin c2 newId d pos tanks).2 =
        ((handleDeviceJoin c2 newId d pos tanks).2, [])) := by
  refine ⟨fun conn pid tanks t h hws => handleClose_inactive h hws, ?_⟩
  intro c1 c2 newId d pos tanks i t hnd hfind hne
  have hmem : (i, t) ∈ tanks := List.mem_of_find?_eq_some hfind
  have hlk : lookupTank tanks i = some t := lookup_of_mem_nodup hnd hmem
  have hjoin : (handleDeviceJoin c2 newId d pos tanks).2 =
      updTank tanks i (fun s => { s with ws := some c2 }) := by
    unfold handleDeviceJoin
    rw [hfind]
  have hlk2 : lookupTank (handleDeviceJoin c2 newId d pos tanks).2 i =
      some { t with ws := some c2 } := by
    rw [hjoin]
    exact lookupTank_updTank_self _ hlk
  refine handleClose_inactive hlk2 ?_
  intro hc
  exact hne (Option.some_inj.mp hc).symm

/-- Concrete world for the C3 witness. -/
def tankW3 : Tank :=
  { Tank.new "id3" "Bob" (9, 9) false with deviceId := some "devB", ws := some 1 }

def tanksW3 : List (String × Tank) := [("id3", tankW3)]

/-- Witness for C3: after tank "id3" reconnects on connection 2, closing the
stale connection 1 removes nothing. -/
theorem claim3_close_removes_only_active_witness :
    handleClose 1 (some "id3")
        (handleDeviceJoin 2 "id9" ⟨some "devB", "Bob"⟩ (3, 3) tanksW3).2 =
      ((handleDeviceJoin 2 "id9" ⟨some "devB", "Bob"⟩ (3, 3) tanksW3).2, []) :=
  claim3_close_removes_only_active.2 1 2 "id9" ⟨some "devB", "Bob"⟩ (3, 3)
    tanksW3 "id3" tankW3 (by decide) rfl (by decide)

/-! ## Hp bounds (claims C4, C5, C7, C8) -/

/-- Spec invariant on one tank: hp within `[0, maxHp]`, with `maxHp` at its
constant value `BASE_HEALTH` (nothing in the server ever changes `maxHp`). -/
def hpOK (t : Tank) : Bool :=
  decide (0 ≤ t.hp) && decide (t.hp ≤ t.maxHp) && (t.maxHp == BASE_HEALTH)

/-- The hp invariant over the whole tanks map. -/
def allHpOK (ts : List (String × Tank)) : Bool :=
  ts.all fun p => hpOK p.2

lemma hpOK_iff {t : Tank} :
    hpOK t = true ↔ 0 ≤ t.hp ∧ t.hp ≤ t.maxHp ∧ t.maxHp = BASE_HEALTH := by
  simp [hpOK, and_assoc]

lemma allHpOK_iff {ts : List (String × Tank)} :
    allHpOK ts = true ↔ ∀ p ∈ ts, hpOK p.2 = true := by
  simp [allHpOK, List.all_eq_true]

lemma maxHp_of_hpOK {t : Tank} (h : hpOK t = true) : t.maxHp = BASE_HEALTH :=
  (hpOK_iff.mp h).2.2

lemma hpOK_respawn {t : Tank} (h : t.maxHp = BASE_HEALTH) (pos : ℚ × ℚ) :
    hpOK (t.respawn pos) = true := by
  rw [hpOK_iff]
  refine ⟨?_, ?_, h⟩
  · show (0 : ℚ) ≤ BASE_HEALTH
    norm_num [BASE_HEALTH]
  · show BASE_HEALTH ≤ t.maxHp
    rw [h]

lemma explodeTank_hpOK {t : Tank} (dist radius damage : ℚ) (pos : ℚ × ℚ)
    (hr : 0 < radius) (hd : 0 ≤ damage) (h : hpOK t = true) :
    hpOK (explodeTank dist radius damage pos t).1 = true := by
  unfold explodeTank
  by_cases hprot : (t.spawnProtection || t.invincible) = true
  · rw [if_pos hprot]
    exact h
  rw [if_neg hprot]
  by_cases hlt : dist < radius
  swap
  · rw [if_neg hlt]
    exact h
  rw [if_pos hlt]
  have hdealt : 0 ≤ damage * (1 - dist / radius) := by
    apply mul_nonneg hd
    have hq : dist / radius < 1 := (div_lt_one hr).mpr hlt
    linarith
  by_cases hdead : ({ t with hp := t.hp - damage * (1 - dist / radius) } : Tank).hp ≤ 0
  · rw [if_pos hdead]
    exact hpOK_respawn (maxHp_of_hpOK h) pos
  · rw [if_neg hdead]
    rcases hpOK_iff.mp h with ⟨h0, h1, h2⟩
    rw [hpOK_iff]
    refine ⟨le_of_lt (not_le.mp hdead), ?_, h2⟩
    show t.hp - damage * (1 - dist / radius) ≤ t.maxHp
    linarith

lemma mem_updTank {ts : List (String × Tank)} {id : String} {f : Tank → Tank}
    {q : String × Tank} (hq : q ∈ updTank ts id f) :
    ∃ p ∈ ts, q = if p.1 == id then (p.1, f p.2) else p := by
  unfold updTank at hq
  rcases List.mem_map.mp hq with ⟨p, hp, hqe⟩
  exact ⟨p, hp, hqe.symm⟩

lemma updTank_forall {P : Tank → Prop} {ts : List (String × Tank)}
    {id : String} {f : Tank → Tank} (h : ∀ p ∈ ts, P p.2)
    (hf : ∀ v, P v → P (f v)) : ∀ q ∈ updTank ts id f, P q.2 := by
  intro q hq
  rcases mem_updTank hq with ⟨p, hp, rfl⟩
  by_cases hk : (p.1 == id) = true
  · rw [if_pos hk]
    exact hf p.2 (h p hp)
  · rw [if_neg hk]
    exact h p hp

lemma updTank_forall_keyne {P : Tank → Prop} {ts : List (String × Tank)}
    {id id2 : String} {f : Tank → Tank}
    (h : ∀ p ∈ ts, (p.1 == id2) = false → P p.2)
    (hf : ∀ v, P v → P (f v)) :
    ∀ q ∈ updTank ts id f, (q.1 == id2) = false → P q.2 := by
  intro q hq
  rcases mem_updTank hq with ⟨p, hp, rfl⟩
  by_cases hk : (p.1 == id) = true
  · rw [if_pos hk]
    intro hne
    exact hf p.2 (h p hp hne)
  · rw [if_neg hk]
    exact h p hp

lemma lookup_mem {ts : List (String × Tank)} {id : String} {t : Tank}
    (h : lookupTank ts id = some t) : ∃ k, (k, t) ∈ ts := by
  induction ts with
  | nil => exact absurd h (by rw [lookupTank_nil]; exact Option.noConfusion)
  | cons p rest ih =>
    by_cases hp : (p.1 == id) = true
    · rw [lookupTank_cons_pos rest hp, Option.some_inj] at h
      exact ⟨p.1, by rw [List.mem_cons]; left; rw [← h]⟩
    · rw [lookupTank_cons_neg rest hp] at h
      rcases ih h with ⟨k, hk⟩
      exact ⟨k, List.mem_cons_of_mem p hk⟩

lemma hpOK_score_kills (v : Tank) (s k : ℕ) :
    hpOK { v with score := s, kills := k } = hpOK v := rfl

lemma maxHp_score_kills (v : Tank) (s k : ℕ) :
    ({ v with score := s, kills := k } : Tank).maxHp = v.maxHp := rfl

lemma bulletTankStep_hpOK (newPos : String → ℚ × ℚ) (b : Bullet) (tid : String)
    (tanks : List (String × Tank)) (hd : 0 ≤ b.damage)
    (h : ∀ p ∈ tanks, hpOK p.2 = true) :
    ∀ p ∈ (bulletTankStep newPos b tid tanks).1, hpOK p.2 = true := by
  unfold bulletTankStep
  cases hlk : lookupTank tanks tid with
  | none => exact h
  | some t =>
    dsimp only
    by_cases h1 : tid = b.ownerId
    · rw [if_pos h1]
      exact h
    rw [if_neg h1]
    by_cases h2 : (t.spawnProtection || t.invincible) = true
    · rw [if_pos h2]
      exact h
    rw [if_neg h2]
    by_cases h3 : checkCollision (b.x, b.y) (t.x, t.y) BULLET_SIZE TANK_SIZE = true
    swap
    · rw [if_neg h3]
      exact h
    rw [if_pos h3]
    have hT : hpOK t = true := by
      rcases lookup_mem hlk with ⟨k, hk⟩
      exact h (k, t) hk
    by_cases h4 : ({ t with hp := t.hp - b.damage } : Tank).hp ≤ 0
    · rw [if_pos h4]
      dsimp only
      -- after the three in-place mutations every entry satisfies hpOK again:
      -- the victim is respawned, the attacker only gains score/kills, and
      -- everyone else is untouched.
      have hmax1 : ∀ q ∈ updTank tanks tid
          (fun _ => { t with hp := t.hp - b.damage }),
          q.2.maxHp = BASE_HEALTH := by
        refine updTank_forall (P := fun v => v.maxHp = BASE_HEALTH)
          (fun p hp => maxHp_of_hpOK (h p hp)) ?_
        intro v _
        show t.maxHp = BASE_HEALTH
        exact maxHp_of_hpOK hT
      have hmax2 : ∀ q ∈ updTank (updTank tanks tid
          (fun _ => { t with hp := t.hp - b.damage })) b.ownerId
          (fun a => { a with score := a.score + (if t.isBot then 50 else 100),
                             kills := a.kills + 1 }),
          q.2.maxHp = BASE_HEALTH := by
        refine updTank_forall (P := fun v => v.maxHp = BASE_HEALTH) hmax1 ?_
        intro v hv
        rw [maxHp_score_kills]
        exact hv
      have hkeep1 : ∀ q ∈ updTank tanks tid
          (fun _ => { t with hp := t.hp - b.damage }),
          (q.1 == tid) = false → hpOK q.2 = true := by
        intro q hq
        rcases mem_updTank hq with ⟨p, hp, rfl⟩
        by_cases hk : (p.1 == tid) = true
        · rw [if_pos hk]
          intro hfalse
          rw [hk] at hfalse
          cases hfalse
        · rw [if_neg hk]
          intro _
          exact h p hp
      have hkeep2 : ∀ q ∈ updTank (updTank tanks tid
          (fun _ => { t with hp := t.hp - b.damage })) b.ownerId
          (fun a => { a with score := a.score + (if t.isBot then 50 else 100),
                             kills := a.kills + 1 }),
          (q.1 == tid) = false → hpOK q.2 = true := by
        refine updTank_forall_keyne (P := fun v => hpOK v = true) hkeep1 ?_
        intro v hv
        rw [hpOK_score_kills]
        exact hv
      intro q hq
      rcases mem_updTank hq with ⟨p, hp, rfl⟩
      by_cases hk : (p.1 == tid) = true
      · rw [if_pos hk]
        exact hpOK_respawn (hmax2 p hp) _
      · rw [if_neg hk]
        exact hkeep2 p hp (Bool.not_eq_true _ ▸ hk)
    · rw [if_neg h4]
      dsimp only
      refine updTank_forall (P := fun v => hpOK v = true) h ?_
      intro v _
      rcases hpOK_iff.mp hT with ⟨h0, hle, hmax⟩
      rw [hpOK_iff]
      refine ⟨le_of_lt (not_le.mp h4), ?_, hmax⟩
      show t.hp - b.damage ≤ t.maxHp
      linarith

lemma bulletHitLoop_hpOK (newPos : String → ℚ × ℚ) (b : Bullet)
    (hd : 0 ≤ b.damage) :
    ∀ (ids : List String) (tanks : List (String × Tank)) (hit : Bool)
      (evs : List GameEvent), (∀ p ∈ tanks, hpOK p.2 = true) →
      ∀ p ∈ (bulletHitLoop newPos b ids tanks hit evs).1, hpOK p.2 = true := by
  intro ids
  induction ids with
  | nil => intro tanks hit evs h; exact h
  | cons tid rest ih =>
    intro tanks hit evs h
    exact ih _ _ _ (bulletTankStep_hpOK newPos b tid tanks hd h)

/-- **C4.** After each hp-affecting resolution step — explosion resolution,
the per-bullet tank loop, and `applyPowerup` (whose HEALTH branch clamps at
`maxHp`) — every tank's hp is back within `[0, maxHp]`: lethal damage
triggers `respawn` (restoring full hp) within the same step. -/
theorem claim4_hp_within_bounds :
    (∀ (dist : ℚ → ℚ → Tank → ℚ) (newPos : String → ℚ × ℚ)
       (x y radius damage : ℚ) (tanks : List (String × Tank)),
      0 < radius → 0 ≤ damage → allHpOK tanks = true →
      allHpOK (createExplosion dist newPos x y radius damage tanks).1 = true) ∧
    (∀ (newPos : String → ℚ × ℚ) (b : Bullet) (tanks : List (String × Tank)),
      0 ≤ b.damage → allHpOK tanks = true →
      allHpOK (resolveBulletTanks newPos b tanks).1 = true) ∧
    (∀ (now : ℕ) (ty : PType) (t : Tank), hpOK t = true →
      hpOK (t.applyPowerup now ty) = true) := by
  refine ⟨?_, ?_, ?_⟩
  · intro dist newPos x y radius damage tanks hr hd h
    rw [allHpOK_iff] at h ⊢
    intro q hq
    rcases List.mem_map.mp hq with ⟨p, hp, rfl⟩
    exact explodeTank_hpOK _ _ _ _ hr hd (h p hp)
  · intro newPos b tanks hd h
    rw [allHpOK_iff] at h ⊢
    exact bulletHitLoop_hpOK newPos b hd _ tanks false [] h
  · intro now ty t h
    unfold Tank.applyPowerup
    by_cases hH : ty = PType.HEALTH
    · rw [if_pos hH]
      rcases hpOK_iff.mp h with ⟨h0, h1, h2⟩
      rw [hpOK_iff]
      refine ⟨?_, min_le_left _ _, h2⟩
      show 0 ≤ min t.maxHp (t.hp + healthAmount)
      apply le_min
      · rw [h2]
        norm_num [BASE_HEALTH]
      · have hh : (0 : ℚ) ≤ healthAmount := by norm_num [healthAmount]
        linarith
    · rw [if_neg hH]
      dsimp only
      split
      · exact h
      · exact h

/-- Concrete world for the C4 witness. -/
def tanksW4 : List (String × Tank) := [("a", Tank.new "a" "A" (100, 100) false)]

/-- Witness for C4 at concrete inputs (a tank outside the blast radius, a
bullet skipping its owner, and a SPEED pickup). -/
theorem claim4_hp_within_bounds_witness :
    allHpOK (createExplosion (fun _ _ _ => 200) (fun _ => (50, 50)) 0 0 150 100
      tanksW4).1 = true ∧
    allHpOK (resolveBulletTanks (fun _ => (50, 50)) ⟨"a", 0, 0, 25⟩ tanksW4).1
      = true ∧
    hpOK ((Tank.new "a" "A" (100, 100) false).applyPowerup 0 .SPEED) = true :=
  ⟨claim4_hp_within_bounds.1 (fun _ _ _ => 200) (fun _ => (50, 50)) 0 0 150 100
      tanksW4 (by decide) (by decide) (by decide),
   claim4_hp_within_bounds.2.1 (fun _ => (50, 50)) ⟨"a", 0, 0, 25⟩ tanksW4
      (by decide) (by decide),
   claim4_hp_within_bounds.2.2 0 .SPEED (Tank.new "a" "A" (100, 100) false)
      (by decide)⟩

/-! ## Protection exemption (claim C5) -/

lemma lookupTank_map_entry {g : String × Tank → Tank}
    {ts : List (String × Tank)} {id : String} {t : Tank}
    (hl : lookupTank ts id = some t) :
    lookupTank (ts.map fun p => (p.1, g p)) id = some (g (id, t)) := by
  induction ts with
  | nil => exact absurd hl (by rw [lookupTank_nil]; exact Option.noConfusion)
  | cons p rest ih =>
    by_cases hp : (p.1 == id) = true
    · rw [lookupTank_cons_pos rest hp, Option.some_inj] at hl
      rw [List.map_cons, lookupTank_cons_pos (p := (p.1, g p)) _ hp]
      have hpe : p.1 = id := beq_iff_eq.mp hp
      calc some (g p) = some (g (p.1, p.2)) := rfl
        _ = some (g (id, t)) := by rw [hpe, hl]
    · rw [lookupTank_cons_neg rest hp] at hl
      rw [List.map_cons, lookupTank_cons_neg (p := (p.1, g p)) _ hp]
      exact ih hl

lemma explodeTank_protected {t : Tank} (dist radius damage : ℚ) (pos : ℚ × ℚ)
    (hprot : (t.spawnProtection || t.invincible) = true) :
    explodeTank dist radius damage pos t = (t, []) := by
  unfold explodeTank
  rw [if_pos hprot]

lemma bulletTankStep_protected_hp (newPos : String → ℚ × ℚ) (b : Bullet)
    (tid : String) (tanks : List (String × Tank)) {id : String} {t : Tank}
    (hl : lookupTank tanks id = some t)
    (hprot : (t.spawnProtection || t.invincible) = true) :
    ∃ t', lookupTank (bulletTankStep newPos b tid tanks).1 id = some t' ∧
      t'.hp = t.hp ∧ t'.spawnProtection = t.spawnProtection ∧
      t'.invincible = t.invincible := by
  unfold bulletTankStep
  cases hlk : lookupTank tanks tid with
  | none => exact ⟨t, hl, rfl, rfl, rfl⟩
  | some tv =>
    dsimp only
    by_cases h1 : tid = b.ownerId
    · rw [if_pos h1]
      exact ⟨t, hl, rfl, rfl, rfl⟩
    rw [if_neg h1]
    by_cases h2 : (tv.spawnProtection || tv.invincible) = true
    · rw [if_pos h2]
      exact ⟨t, hl, rfl, rfl, rfl⟩
    rw [if_neg h2]
    by_cases h3 : checkCollision (b.x, b.y) (tv.x, tv.y) BULLET_SIZE TANK_SIZE
      = true
    swap
    · rw [if_neg h3]
      exact ⟨t, hl, rfl, rfl, rfl⟩
    rw [if_pos h3]
    have hne : id ≠ tid := by
      intro he
      subst he
      rw [hl, Option.some_inj] at hlk
      rw [← hlk] at h2
      exact h2 hprot
    by_cases h4 : ({ tv with hp := tv.hp - b.damage } : Tank).hp ≤ 0
    · rw [if_pos h4]
      dsimp only
      rw [lookupTank_updTank_ne _ hne]
      by_cases hown : id = b.ownerId
      · rw [← hown]
        have hl1 : lookupTank (updTank tanks tid
            (fun _ => { tv with hp := tv.hp - b.damage })) id = some t := by
          rw [lookupTank_updTank_ne _ hne]
          exact hl
        rw [lookupTank_updTank_self _ hl1]
        exact ⟨_, rfl, rfl, rfl, rfl⟩
      · rw [lookupTank_updTank_ne _ hown, lookupTank_updTank_ne _ hne]
        exact ⟨t, hl, rfl, rfl, rfl⟩
    · rw [if_neg h4]
      dsimp only
      rw [lookupTank_updTank_ne _ hne]
      exact ⟨t, hl, rfl, rfl, rfl⟩

lemma bulletHitLoop_protected (newPos : String → ℚ × ℚ) (b : Bullet) :
    ∀ (ids : List String) (tanks : List (String × Tank)) (hit : Bool)
      (evs : List GameEvent) (id : String) (t : Tank),
      lookupTank tanks id = some t →
      (t.spawnProtection || t.invincible) = true →
      ∃ t', lookupTank (bulletHitLoop newPos b ids tanks hit evs).1 id
          = some t' ∧
        t'.hp = t.hp ∧ t'.spawnProtection = t.spawnProtection ∧
        t'.invincible = t.invincible := by
  intro ids
  induction ids with
  | nil =>
    intro tanks hit evs id t hl hprot
    exact ⟨t, hl, rfl, rfl, rfl⟩
  | cons tid rest ih =>
    intro tanks hit evs id t hl hprot
    rcases bulletTankStep_protected_hp newPos b tid tanks hl hprot with
      ⟨t', hl', e1, e2, e3⟩
    have hprot' : (t'.spawnProtection || t'.invincible) = true := by
      rw [e2, e3]
      exact hprot
    rcases ih _ _ _ id t' hl' hprot' with ⟨t'', hl'', g1, g2, g3⟩
    exact ⟨t'', hl'', g1.trans e1, g2.trans e2, g3.trans e3⟩

/-- **C5.** A tank whose `spawnProtection` or `invincible` flag is set is
skipped by both damage paths: an explosion leaves it entirely unchanged,
and the per-bullet tank loop never changes its hp. -/
theorem claim5_protected_take_no_damage :
    (∀ (dist : ℚ → ℚ → Tank → ℚ) (newPos : String → ℚ × ℚ)
       (x y radius damage : ℚ) (tanks : List (String × Tank))
       (id : String) (t : Tank),
      lookupTank tanks id = some t →
      (t.spawnProtection || t.invincible) = true →
      lookupTank (createExplosion dist newPos x y radius damage tanks).1 id
        = some t) ∧
    (∀ (newPos : String → ℚ × ℚ) (b : Bullet) (tanks : List (String × Tank))
       (id : String) (t : Tank),
      lookupTank tanks id = some t →
      (t.spawnProtection || t.invincible) = true →
      ∃ t', lookupTank (resolveBulletTanks newPos b tanks).1 id = some t' ∧
        t'.hp = t.hp) := by
  constructor
  · intro dist newPos x y radius damage tanks id t hl hprot
    unfold createExplosion
    dsimp only
    have hm := lookupTank_map_entry
      (g := fun p => (explodeTank (dist x y p.2) radius damage (newPos p.1) p.2).1)
      hl
    dsimp only at hm
    rw [explodeTank_protected (dist x y t) radius damage (newPos id) hprot] at hm
    exact hm
  · intro newPos b tanks id t hl hprot
    rcases bulletHitLoop_protected newPos b _ tanks false [] id t hl hprot with
      ⟨t', hl', e1, _, _⟩
    exact ⟨t', hl', e1⟩

/-- Concrete world for the C5 witness: a spawn-protected tank in blast range
of a barrel explosion and in the path of an enemy bullet. -/
def tankW5 : Tank := Tank.new "p" "Prot" (100, 100) false

def tanksW5 : List (String × Tank) := [("p", tankW5)]

/-- Witness for C5: the protected tank survives a direct-hit explosion and a
direct-hit bullet with its hp untouched. -/
theorem claim5_protected_take_no_damage_witness :
    lookupTank (createExplosion (fun _ _ _ => 0) (fun _ => (50, 50)) 100 100
      150 100 tanksW5).1 "p" = some tankW5 ∧
    ∃ t', lookupTank (resolveBulletTanks (fun _ => (50, 50))
        ⟨"shooter", 100, 100, 25⟩ tanksW5).1 "p" = some t' ∧
      t'.hp = tankW5.hp :=
  ⟨claim5_protected_take_no_damage.1 (fun _ _ _ => 0) (fun _ => (50, 50))
      100 100 150 100 tanksW5 "p" tankW5 rfl rfl,
   claim5_protected_take_no_damage.2 (fun _ => (50, 50))
      ⟨"shooter", 100, 100, 25⟩ tanksW5 "p" tankW5 rfl rfl⟩

/-! ## Explosion damage falloff (claim C7) -/

/-- **C7.** Explosion falloff: an unprotected tank at distance `dist` from
the epicenter takes exactly `damage * (1 - dist / radius)` when
`dist < radius` (followed by the lethal respawn when that drives hp to 0 or
below), and takes nothing when `dist ≥ radius`. -/
theorem claim7_explosion_falloff (dist radius damage : ℚ) (pos : ℚ × ℚ)
    (t : Tank) (hprot : (t.spawnProtection || t.invincible) = false) :
    (radius ≤ dist → explodeTank dist radius damage pos t = (t, [])) ∧
    (dist < radius →
      (0 < t.hp - damage * (1 - dist / radius) →
        explodeTank dist radius damage pos t =
          ({ t with hp := t.hp - damage * (1 - dist / radius) }, [])) ∧
      (t.hp - damage * (1 - dist / radius) ≤ 0 →
        explodeTank dist radius damage pos t =
          (Tank.respawn pos
            { t with hp := t.hp - damage * (1 - dist / radius) },
           [GameEvent.tankDeathKiller t.id none]))) := by
  have hproti : ¬(t.spawnProtection || t.invincible) = true := by
    rw [hprot]
    exact Bool.false_ne_true
  refine ⟨fun hge => ?_, fun hlt => ⟨fun halive => ?_, fun hdead => ?_⟩⟩
  · unfold explodeTank
    rw [if_neg hproti, if_neg (not_lt.mpr hge)]
  · unfold explodeTank
    have h4 : ¬(({ t with hp := t.hp - damage * (1 - dist / radius) } :
        Tank).hp ≤ 0) := not_le.mpr halive
    rw [if_neg hproti, if_pos hlt, if_neg h4]
  · unfold explodeTank
    have h4 : ({ t with hp := t.hp - damage * (1 - dist / radius) } :
        Tank).hp ≤ 0 := hdead
    rw [if_neg hproti, if_pos hlt, if_pos h4]

/-- An unprotected tank for the C7 witness. -/
def tankW7 : Tank :=
  { Tank.new "w7" "W" (100, 100) false with spawnProtection := false }

/-- Witness for C7, instantiated outside the blast radius. -/
theorem claim7_explosion_falloff_witness :
    ((150 : ℚ) ≤ 200 → explodeTank 200 150 100 (50, 50) tankW7 = (tankW7, [])) ∧
    ((200 : ℚ) < 150 →
      (0 < tankW7.hp - 100 * (1 - 200 / 150) →
        explodeTank 200 150 100 (50, 50) tankW7 =
          ({ tankW7 with hp := tankW7.hp - 100 * (1 - 200 / 150) }, [])) ∧
      (tankW7.hp - 100 * (1 - 200 / 150) ≤ 0 →
        explodeTank 200 150 100 (50, 50) tankW7 =
          (Tank.respawn (50, 50)
            { tankW7 with hp := tankW7.hp - 100 * (1 - 200 / 150) },
           [GameEvent.tankDeathKiller tankW7.id none]))) :=
  claim7_explosion_falloff 200 150 100 (50, 50) tankW7 rfl

/-! ## Barrel-explosion death scenario (claim C8) -/

/-- The unprotected hp-100 tank of the C8 scenario, standing at distance 0
from the barrel. -/
def tankW8 : Tank :=
  { Tank.new "A" "Alpha" (0, 0) false with spawnProtection := false }

def tanksW8 : List (String × Tank) := [("A", tankW8)]

/-- Recognises a `tankDeath` broadcast of the outbound-schema shape
`{tankId, killerId, wasBot}` (the shape the bullet path sends). -/
def isKillerIdDeath : GameEvent → Bool
  | .tankDeathKillerId _ _ _ => true
  | _ => false

lemma explodeTankW8_eq :
    explodeTank 0 150 100 (500, 500) tankW8 =
      (Tank.respawn (500, 500)
        { tankW8 with hp := tankW8.hp - 100 * (1 - 0 / 150) },
       [GameEvent.tankDeathKiller "A" none]) := by
  have hdead : ({ tankW8 with hp := tankW8.hp - 100 * (1 - 0 / 150) } :
      Tank).hp ≤ 0 := by
    show tankW8.hp - 100 * (1 - 0 / 150) ≤ 0
    norm_num [tankW8, Tank.new, BASE_HEALTH]
  unfold explodeTank
  rw [if_neg (by decide), if_pos (by decide : (0 : ℚ) < 150), if_pos hdead]
  rfl

lemma createExplosionW8_eq :
    createExplosion (fun _ _ _ => 0) (fun _ => (500, 500)) 0 0 150 100 tanksW8
      = ([("A", Tank.respawn (500, 500)
            { tankW8 with hp := tankW8.hp - 100 * (1 - 0 / 150) })],
         [GameEvent.tankDeathKiller "A" none,
          GameEvent.explosionMsg 0 0 150]) := by
  unfold createExplosion tanksW8
  dsimp only [List.map]
  rw [explodeTankW8_eq]
  rfl

/-- Counterexample to C8 as stated: in the barrel scenario the tank is
killed and respawned, but the broadcast `tankDeath` message is of the shape
`{tankId, killer: null}` — no message of the claimed outbound schema
`{tankId, killerId|null, wasBot}` is emitted (the `killerId` and `wasBot`
keys are absent on the explosion path). -/
theorem claim8_counterexample :
    tankW8.hp - 100 * (1 - 0 / 150) ≤ 0 ∧
    (createExplosion (fun _ _ _ => 0) (fun _ => (500, 500)) 0 0 150 100
        tanksW8).2 =
      [GameEvent.tankDeathKiller "A" none, GameEvent.explosionMsg 0 0 150] ∧
    ((createExplosion (fun _ _ _ => 0) (fun _ => (500, 500)) 0 0 150 100
        tanksW8).2.filter isKillerIdDeath) = [] := by
  refine ⟨by norm_num [tankW8, Tank.new, BASE_HEALTH], ?_, ?_⟩
  · rw [createExplosionW8_eq]
  · rw [createExplosionW8_eq]
    rfl

/-- **C8 (amended).** An unprotected hp-100 tank at distance 0 from a barrel
explosion (radius 150, damage 100) is driven to hp ≤ 0, respawns (full hp,
one more death), and a `tankDeath` broadcast with a null killer is emitted —
but under the field name `killer` (no `killerId`, no `wasBot`). -/
theorem claim8_barrel_explosion_kill :
    tankW8.hp - 100 * (1 - 0 / 150) ≤ 0 ∧
    (createExplosion (fun _ _ _ => 0) (fun _ => (500, 500)) 0 0 150 100
        tanksW8).1 =
      [("A", Tank.respawn (500, 500)
          { tankW8 with hp := tankW8.hp - 100 * (1 - 0 / 150) })] ∧
    (Tank.respawn (500, 500)
        { tankW8 with hp := tankW8.hp - 100 * (1 - 0 / 150) }).hp =
      BASE_HEALTH ∧
    (Tank.respawn (500, 500)
        { tankW8 with hp := tankW8.hp - 100 * (1 - 0 / 150) }).deaths =
      tankW8.deaths + 1 ∧
    (createExplosion (fun _ _ _ => 0) (fun _ => (500, 500)) 0 0 150 100
        tanksW8).2 =
      [GameEvent.tankDeathKiller "A" none, GameEvent.explosionMsg 0 0 150] := by
  refine ⟨by norm_num [tankW8, Tank.new, BASE_HEALTH], ?_, rfl, rfl, ?_⟩
  · rw [createExplosionW8_eq]
  · rw [createExplosionW8_eq]

/-! ## Periodic spawners (claim C9) -/

/-- The live tank of the C9 counterexample, standing exactly where the
powerup will spawn. -/
def tankW9 : Tank := Tank.new "t1" "T" (100, 100) false

def tanksW9 : List (String × Tank) := [("t1", tankW9)]

/-- Counterexample to C9 as stated: with a live tank at (100, 100),
`spawnPowerup` (under the cap) still adds a powerup at (100, 100) — the
powerup overlaps the tank (their distance, 0, is below the pickup-collision
threshold), because `spawnPowerup` performs no tank-collision check. -/
theorem claim9_counterexample :
    (spawnPowerup "pw" PType.SPEED (100, 100) []).1 =
      [{ id := "pw", typ := PType.SPEED, x := 100, y := 100, size := 25 }] ∧
    checkCollision (100, 100) (tankW9.x, tankW9.y) 25 TANK_SIZE = true := by
  constructor
  · rfl
  · simp only [checkCollision, decide_eq_true_eq]
    norm_num [distSq, TANK_SIZE, tankW9, Tank.new]

/-- **C9 (amended).** Each periodic spawner adds nothing once its cap is
reached (`MAX_OBSTACLES`, `MAX_POWERUPS`), and `spawnObstacle` also rejects
a placement within `TANK_SIZE * 2` of any live tank; `spawnPowerup`,
however, performs no tank-collision check: below the cap it always appends
the powerup at the given position. -/
theorem claim9_spawner_caps :
    (∀ (id : String) (typ : OType) (pos : ℚ × ℚ)
       (tanks : List (String × Tank)) (obstacles : List Obstacle),
      MAX_OBSTACLES ≤ obstacles.length →
      spawnObstacle id typ pos tanks obstacles = (obstacles, [])) ∧
    (∀ (id : String) (typ : PType) (pos : ℚ × ℚ) (powerups : List Powerup),
      MAX_POWERUPS ≤ powerups.length →
      spawnPowerup id typ pos powerups = (powerups, [])) ∧
    (∀ (id : String) (typ : OType) (pos : ℚ × ℚ)
       (tanks : List (String × Tank)) (obstacles : List Obstacle),
      (tanks.any fun p =>
        decide (distSq pos (p.2.x, p.2.y) < (TANK_SIZE * 2) ^ 2)) = true →
      spawnObstacle id typ pos tanks obstacles = (obstacles, [])) ∧
    (∀ (id : String) (typ : PType) (pos : ℚ × ℚ) (powerups : List Powerup),
      powerups.length < MAX_POWERUPS →
      (spawnPowerup id typ pos powerups).1 = powerups ++
        [{ id := id, typ := typ, x := pos.1, y := pos.2, size := 25 }]) := by
  refine ⟨?_, ?_, ?_, ?_⟩
  · intro id typ pos tanks obstacles h
    unfold spawnObstacle
    rw [if_pos h]
  · intro id typ pos powerups h
    unfold spawnPowerup
    rw [if_pos h]
  · intro id typ pos tanks obstacles h
    unfold spawnObstacle
    by_cases hcap : obstacles.length ≥ MAX_OBSTACLES
    · rw [if_pos hcap]
    · rw [if_neg hcap, if_pos h]
  · intro id typ pos powerups h
    unfold spawnPowerup
    rw [if_neg (not_le.mpr h)]

/-- Witness for C9 (amended): full caps reject, a tank-colliding obstacle
placement rejects, and an under-cap powerup is appended. -/
theorem claim9_spawner_caps_witness :
    spawnObstacle "o" OType.TREE (0, 0) []
        (List.replicate 30 (mkObstacle "x" OType.TREE (0, 0))) =
      (List.replicate 30 (mkObstacle "x" OType.TREE (0, 0)), []) ∧
    spawnPowerup "q" PType.SPEED (0, 0)
        (List.replicate 5 { id := "y", typ := PType.SPEED, x := 0, y := 0,
                            size := 25 }) =
      (List.replicate 5 { id := "y", typ := PType.SPEED, x := 0, y := 0,
                          size := 25 }, []) ∧
    spawnObstacle "o" OType.TREE (100, 100) tanksW9 [] = ([], []) ∧
    (spawnPowerup "pw" PType.SPEED (100, 100) []).1 =
      [{ id := "pw", typ := PType.SPEED, x := 100, y := 100, size := 25 }] := by
  refine ⟨claim9_spawner_caps.1 "o" OType.TREE (0, 0) _ _ (by decide),
          claim9_spawner_caps.2.1 "q" PType.SPEED (0, 0) _ (by decide),
          claim9_spawner_caps.2.2.1 "o" OType.TREE (100, 100) tanksW9 [] ?_,
          claim9_spawner_caps.2.2.2 "pw" PType.SPEED (100, 100) [] (by decide)⟩
  simp only [tanksW9, List.any_cons, List.any_nil, Bool.or_false,
    decide_eq_true_eq]
  norm_num [distSq, TANK_SIZE, tankW9, Tank.new]

/-! ## Scoreboard (claim C10) -/

/-- **C10.** `updateScoreboard` rebuilds the scoreboard wholesale: the
result is exactly one row (id, name, score, kills, deaths, isBot) per live
tank — a permutation of the projected tank list, of the same length — in
non-increasing score order.  The previous scoreboard is not an input at
all, so no incremental editing is possible. -/
theorem claim10_scoreboard_rebuild (tanks : List (String × Tank)) :
    (updateScoreboard tanks).Perm (tanks.map fun p => scoreRow p.2) ∧
    List.Sorted scoreGe (updateScoreboard tanks) ∧
    (updateScoreboard tanks).length = tanks.length := by
  refine ⟨List.perm_insertionSort scoreGe _,
          List.sorted_insertionSort scoreGe _, ?_⟩
  rw [updateScoreboard, (List.perm_insertionSort scoreGe
    (tanks.map fun p => scoreRow p.2)).length_eq]
  exact List.length_map _ _
